import Mathlib

/-!
Shallow embedding of the critique-compilation and iterative-refinement core of the
Hack-Nation TriHuskAI backend, together with theorems settling the frozen claims.

Sources embedded:
- `backend/config.py` (`Settings`)
- `backend/app/models/schemas.py` (score levels, analysis records)
- `backend/app/core/critique_engine.py` (`_get_score_level`, `_get_fallback_critique`,
  `_parse_gemini_response`, `_get_gemini_critique`, `_compile_critique`, `critique_ad`)
- `backend/app/core/refinement_agent.py` (`_fallback_refinement`)
- `backend/app/core/multi_agent_orchestrator.py` (`generate_and_refine`)

Python floats are modelled as `ℚ` (the properties at stake are arithmetic identities
and comparisons stated "within floating tolerance"); Python dicts with optional keys
are modelled as structures with `Option` fields, `d.get(k, v)` becoming `Option.getD`.
-/

namespace TriHusk

/-! ## config.py -/

/-- Embeds the critique-threshold block of `Settings` in `backend/config.py`. -/
structure Settings where
  min_brand_score : ℚ
  min_quality_score : ℚ
  min_safety_score : ℚ
  min_clarity_score : ℚ

/-- The module-level `settings = Settings()` instance with its declared defaults. -/
def settings : Settings :=
  { min_brand_score := 0.7
    min_quality_score := 0.6
    min_safety_score := 0.9
    min_clarity_score := 0.7 }

/-! ## app/models/schemas.py -/

/-- Embeds `ScoreLevel` enum. -/
inductive ScoreLevel
  | excellent
  | good
  | fair
  | poor

/-- Embeds `BrandKit` (the fields the critique engine reads). -/
structure BrandKit where
  brand_id : String
  brand_name : String
  primary_colors : List String
  tone_of_voice : List String

/-- Embeds `CritiqueScore`: one scored dimension of a compiled critique. The string-valued
`feedback` field (which interpolates formatted floats and no claim mentions) is not
modelled. -/
structure CritiqueScore where
  score : ℚ
  level : ScoreLevel
  issues : List String
  suggestions : List String

/-- Embeds `ColorAnalysis`. -/
structure ColorAnalysis where
  dominant_colors : List String
  color_palette : List String
  brand_color_match : ℚ
  color_harmony : ℚ

/-- Embeds `VisualAnalysis`. Note that the model has NO `contrast` field: the attribute
access `visual_analysis.contrast` in `_get_fallback_critique` raises
`AttributeError` at runtime. -/
structure VisualAnalysis where
  sharpness : ℚ
  composition : ℚ
  has_watermark : Bool
  has_artifacts : Bool
  resolution_width : Nat
  resolution_height : Nat
  aspect_ratio : String

/-! ## The oracle critique payload

`_get_gemini_critique` produces a dict with one sub-dict per dimension; every key may
be absent, which `_compile_critique` reads with `.get(key, default)`. -/

/-- One per-dimension sub-dict of the oracle payload (the `feedback` string, which
no claim mentions, is not modelled). -/
structure DimensionPayload where
  score : Option ℚ
  confidence : Option ℚ
  issues : Option (List String)
  suggestions : Option (List String)

/-- The empty dict `{}` used by `ai_critique.get(dimension, {})`. -/
def DimensionPayload.empty : DimensionPayload :=
  { score := none, confidence := none, issues := none, suggestions := none }

/-- The `detected_elements` sub-dict of the oracle payload (keys the claims track). -/
structure DetectedElements where
  cv_analysis_used : Option Bool
  ai_analysis_available : Option Bool

/-- The oracle critique payload consumed by `_compile_critique`. -/
structure AiCritique where
  brand_alignment : Option DimensionPayload
  visual_quality : Option DimensionPayload
  message_clarity : Option DimensionPayload
  safety_ethics : Option DimensionPayload
  overall_confidence : Option ℚ
  detected_elements : Option DetectedElements

/-! ## critique_engine.py -/

/-- Embeds `CritiqueEngine._get_score_level`. -/
def get_score_level (score : ℚ) : ScoreLevel :=
  if score ≥ 0.85 then .excellent
  else if score ≥ 0.70 then .good
  else if score ≥ 0.50 then .fair
  else .poor

/-- The `detected_elements` dict of the compiled critique: the oracle payload's
entries merged with the two analysis records. -/
structure CompiledDetectedElements where
  cv_analysis_used : Option Bool
  ai_analysis_available : Option Bool
  color_analysis : ColorAnalysis
  visual_analysis : VisualAnalysis

/-- The dict returned by `_compile_critique` (the fields the claims are about). -/
structure CritiqueResult where
  overall_score : ℚ
  overall_level : ScoreLevel
  ready_to_deploy : Bool
  brand_alignment : CritiqueScore
  visual_quality : CritiqueScore
  message_clarity : CritiqueScore
  safety_ethics : CritiqueScore
  brand_confidence : ℚ
  quality_confidence : ℚ
  clarity_confidence : ℚ
  safety_confidence : ℚ
  overall_confidence : ℚ
  needs_manual_review : Bool
  low_confidence_areas : List String
  detected_elements : CompiledDetectedElements
  approval_status : String

/-!
`CritiqueEngine._compile_critique` (critique_engine.py lines 472-659).
The Python body is a single sequence of local assignments; it is embedded here as
one small definition per assignment (the long `let`-telescope, spelled as a single
Lean definition, makes elaboration blow up) with `compile_critique` assembling the
returned dict exactly as the source does.
-/

/-- Embeds `brand_score_data = ai_critique.get("brand_alignment", {})`. -/
def brand_score_data (ai_critique : AiCritique) : DimensionPayload :=
  ai_critique.brand_alignment.getD .empty

/-- Embeds `quality_score_data = ai_critique.get("visual_quality", {})`. -/
def quality_score_data (ai_critique : AiCritique) : DimensionPayload :=
  ai_critique.visual_quality.getD .empty

/-- Embeds `clarity_score_data = ai_critique.get("message_clarity", {})`. -/
def clarity_score_data (ai_critique : AiCritique) : DimensionPayload :=
  ai_critique.message_clarity.getD .empty

/-- Embeds `safety_score_data = ai_critique.get("safety_ethics", {})`. -/
def safety_score_data (ai_critique : AiCritique) : DimensionPayload :=
  ai_critique.safety_ethics.getD .empty

/-- Embeds `brand_confidence = brand_score_data.get("confidence", 0.5)`. -/
def brand_confidence (ai_critique : AiCritique) : ℚ :=
  (brand_score_data ai_critique).confidence.getD 0.5

/-- Embeds `quality_confidence = quality_score_data.get("confidence", 0.5)`. -/
def quality_confidence (ai_critique : AiCritique) : ℚ :=
  (quality_score_data ai_critique).confidence.getD 0.5

/-- Embeds `clarity_confidence = clarity_score_data.get("confidence", 0.5)`. -/
def clarity_confidence (ai_critique : AiCritique) : ℚ :=
  (clarity_score_data ai_critique).confidence.getD 0.5

/-- Embeds `safety_confidence = safety_score_data.get("confidence", 0.5)`. -/
def safety_confidence (ai_critique : AiCritique) : ℚ :=
  (safety_score_data ai_critique).confidence.getD 0.5

/-- Embeds `overall_confidence = ai_critique.get("overall_confidence", mean of the four)`. -/
def overall_confidence (ai_critique : AiCritique) : ℚ :=
  ai_critique.overall_confidence.getD
    ((brand_confidence ai_critique + quality_confidence ai_critique +
      clarity_confidence ai_critique + safety_confidence ai_critique) / 4)

/-- Embeds `needs_manual_review = overall_confidence < 0.65`. -/
def needs_manual_review (ai_critique : AiCritique) : Bool :=
  decide (overall_confidence ai_critique < 0.65)

/-- The `low_confidence_areas` list built by four `if c < 0.7: append(...)` statements. -/
def low_confidence_areas (ai_critique : AiCritique) : List String :=
  (if brand_confidence ai_critique < 0.7 then ["brand_alignment"] else []) ++
  (if quality_confidence ai_critique < 0.7 then ["visual_quality"] else []) ++
  (if clarity_confidence ai_critique < 0.7 then ["message_clarity"] else []) ++
  (if safety_confidence ai_critique < 0.7 then ["safety_ethics"] else [])

/-- Embeds `brand_score = brand_score_data.get("score", 0.5)`, then
`if brand_kit: brand_score = (brand_score + color_analysis.brand_color_match) / 2`. -/
def brand_score (brand_kit : Option BrandKit) (color_analysis : ColorAnalysis)
    (ai_critique : AiCritique) : ℚ :=
  match brand_kit with
  | some _ => ((brand_score_data ai_critique).score.getD 0.5 +
      color_analysis.brand_color_match) / 2
  | none => (brand_score_data ai_critique).score.getD 0.5

/-- Embeds `quality_score = (quality_score_data.get("score", 0.5) + sharpness + composition) / 3`. -/
def quality_score (visual_analysis : VisualAnalysis) (ai_critique : AiCritique) : ℚ :=
  ((quality_score_data ai_critique).score.getD 0.5 +
   visual_analysis.sharpness + visual_analysis.composition) / 3

/-- The `brand_alignment = CritiqueScore(...)` assignment. -/
def brand_alignment (brand_kit : Option BrandKit) (color_analysis : ColorAnalysis)
    (ai_critique : AiCritique) : CritiqueScore :=
  { score := brand_score brand_kit color_analysis ai_critique
    level := get_score_level (brand_score brand_kit color_analysis ai_critique)
    issues := (brand_score_data ai_critique).issues.getD []
    suggestions := (brand_score_data ai_critique).suggestions.getD [] }

/-- The `visual_quality = CritiqueScore(...)` assignment (appends the watermark issue). -/
def visual_quality (visual_analysis : VisualAnalysis) (ai_critique : AiCritique) :
    CritiqueScore :=
  { score := quality_score visual_analysis ai_critique
    level := get_score_level (quality_score visual_analysis ai_critique)
    issues := (quality_score_data ai_critique).issues.getD [] ++
      (if visual_analysis.has_watermark then ["Watermark detected"] else [])
    suggestions := (quality_score_data ai_critique).suggestions.getD [] }

/-- The `message_clarity = CritiqueScore(...)` assignment. -/
def message_clarity (ai_critique : AiCritique) : CritiqueScore :=
  { score := (clarity_score_data ai_critique).score.getD 0.5
    level := get_score_level ((clarity_score_data ai_critique).score.getD 0.5)
    issues := (clarity_score_data ai_critique).issues.getD []
    suggestions := (clarity_score_data ai_critique).suggestions.getD [] }

/-- The `safety_ethics = CritiqueScore(...)` assignment. -/
def safety_ethics (ai_critique : AiCritique) : CritiqueScore :=
  { score := (safety_score_data ai_critique).score.getD 0.5
    level := get_score_level ((safety_score_data ai_critique).score.getD 0.5)
    issues := (safety_score_data ai_critique).issues.getD []
    suggestions := (safety_score_data ai_critique).suggestions.getD [] }

/-- Embeds `overall_score = brand*0.3 + visual*0.25 + clarity*0.25 + safety*0.20`
(critique_engine.py lines 554-560). -/
def overall_score (brand_kit : Option BrandKit) (visual_analysis : VisualAnalysis)
    (color_analysis : ColorAnalysis) (ai_critique : AiCritique) : ℚ :=
  (brand_alignment brand_kit color_analysis ai_critique).score * 0.3 +
  (visual_quality visual_analysis ai_critique).score * 0.25 +
  (message_clarity ai_critique).score * 0.25 +
  (safety_ethics ai_critique).score * 0.20

/-- The `ready_to_deploy` conjunction of the four configured minimums
(critique_engine.py lines 562-568). -/
def ready_to_deploy (brand_kit : Option BrandKit) (visual_analysis : VisualAnalysis)
    (color_analysis : ColorAnalysis) (ai_critique : AiCritique) : Bool :=
  decide
    ((brand_alignment brand_kit color_analysis ai_critique).score ≥ settings.min_brand_score ∧
     (visual_quality visual_analysis ai_critique).score ≥ settings.min_quality_score ∧
     (safety_ethics ai_critique).score ≥ settings.min_safety_score ∧
     (message_clarity ai_critique).score ≥ settings.min_clarity_score)

/-- The merged `detected_elements` dict of the compiled critique. -/
def compiled_detected_elements (visual_analysis : VisualAnalysis)
    (color_analysis : ColorAnalysis) (ai_critique : AiCritique) : CompiledDetectedElements :=
  { cv_analysis_used := (ai_critique.detected_elements.getD ⟨none, none⟩).cv_analysis_used
    ai_analysis_available := (ai_critique.detected_elements.getD ⟨none, none⟩).ai_analysis_available
    color_analysis := color_analysis
    visual_analysis := visual_analysis }

/-- Embeds `CritiqueEngine._compile_critique` (critique_engine.py lines 472-659). -/
def compile_critique (brand_kit : Option BrandKit) (visual_analysis : VisualAnalysis)
    (color_analysis : ColorAnalysis) (ai_critique : AiCritique) : CritiqueResult :=
  { overall_score := overall_score brand_kit visual_analysis color_analysis ai_critique
    overall_level :=
      get_score_level (overall_score brand_kit visual_analysis color_analysis ai_critique)
    ready_to_deploy := ready_to_deploy brand_kit visual_analysis color_analysis ai_critique
    brand_alignment := brand_alignment brand_kit color_analysis ai_critique
    visual_quality := visual_quality visual_analysis ai_critique
    message_clarity := message_clarity ai_critique
    safety_ethics := safety_ethics ai_critique
    brand_confidence := brand_confidence ai_critique
    quality_confidence := quality_confidence ai_critique
    clarity_confidence := clarity_confidence ai_critique
    safety_confidence := safety_confidence ai_critique
    overall_confidence := overall_confidence ai_critique
    needs_manual_review := needs_manual_review ai_critique
    low_confidence_areas := low_confidence_areas ai_critique
    detected_elements := compiled_detected_elements visual_analysis color_analysis ai_critique
    approval_status :=
      if ready_to_deploy brand_kit visual_analysis color_analysis ai_critique
      then "approved" else "pending" }

/-! ## The fallback critique path (critique_engine.py lines 98-126 and 388-470) -/

/-- The `quality_score` local of `_get_fallback_critique`: initialised to 0.5, and
reassigned from the CV metrics when an image path was given, the file exists and
`analyze_quality` succeeds (`cv = some v`). -/
def fallback_quality_score (cv : Option VisualAnalysis) : ℚ :=
  match cv with
  | some v => (v.sharpness + v.composition) / 2
  | none => 0.5

/-- Embeds `CritiqueEngine._get_fallback_critique` (critique_engine.py lines 406-470).
`cv` is `some v` when an `image_path` was passed, the file exists and
`analyze_quality` succeeded there. Inside the `try` block `quality_score` is
assigned from sharpness and composition, after which the attribute access
`visual_analysis.contrast` raises `AttributeError` (`VisualAnalysis` declares no
`contrast` field); the blanket `except Exception` swallows it, so `clarity_score`
keeps its 0.5 initializer and the `feedback_notes` appends are never reached. -/
def get_fallback_critique (cv : Option VisualAnalysis) : AiCritique :=
  { brand_alignment := some
      { score := some 0.5
        confidence := none
        issues := some ["Could not perform AI brand analysis"]
        suggestions := some ["Manually verify brand colors and logo placement"] }
    visual_quality := some
      { score := some (fallback_quality_score cv)
        confidence := none
        issues := some []
        suggestions := some
          (if fallback_quality_score cv < 0.6
           then ["Consider improving image sharpness"] else []) }
    message_clarity := some
      { score := some 0.5
        confidence := none
        issues := some (if (0.5 : ℚ) < 0.6 then ["Text visibility could not be verified by AI"] else [])
        suggestions := some (if (0.5 : ℚ) < 0.6 then ["Increase text contrast for better readability"] else []) }
    safety_ethics := some
      { score := some 0.7
        confidence := none
        issues := some ["Manual safety review needed"]
        suggestions := some ["Conduct manual review for brand compliance and safety"] }
    overall_confidence := none
    detected_elements := some
      { cv_analysis_used := some true
        ai_analysis_available := some false } }

/-- Outcome of inspecting the oracle's response text: either the (fence-stripped)
text is valid JSON for a critique payload, or it is not. -/
inductive ParseOutcome
  | parsed (data : AiCritique)
  | unparsable (text : String)

/-- Embeds `CritiqueEngine._parse_gemini_response` (critique_engine.py lines 388-404): on a
JSON decode error it returns `self._get_fallback_critique()` with NO image path. -/
def parse_gemini_response : ParseOutcome → AiCritique
  | .parsed data => data
  | .unparsable _ => get_fallback_critique none

/-- Embeds `CritiqueEngine._get_gemini_critique` (critique_engine.py lines 98-126): the
`try` block either returns the parsed response, or — when `generate_content`
raises — falls back passing the image path. `cv` is the `VisualAnalysis` that
re-analysing that path yields (`critique_ad` has already analysed it successfully,
and the analysis is deterministic). -/
def get_gemini_critique (oracle : Except String ParseOutcome) (cv : VisualAnalysis) :
    AiCritique :=
  match oracle with
  | .ok response => parse_gemini_response response
  | .error _ => get_fallback_critique (some cv)

/-- Embeds `CritiqueEngine.critique_ad` (critique_engine.py lines 48-84), with the
deterministic CV analyses given as the already-computed records and the oracle
call's outcome given as `oracle`. -/
def critique_ad (visual_analysis : VisualAnalysis) (color_analysis : ColorAnalysis)
    (brand_kit : Option BrandKit) (oracle : Except String ParseOutcome) : CritiqueResult :=
  compile_critique brand_kit visual_analysis color_analysis
    (get_gemini_critique oracle visual_analysis)

/-! ## refinement_agent.py (`RefinementAgent._fallback_refinement`, lines 203-243) -/

/-- The `critique_result["scores"]` sub-dict read by `_fallback_refinement`; every
key may be absent. -/
structure CritiqueScoresDict where
  brand_alignment : Option ℚ
  visual_quality : Option ℚ
  message_clarity : Option ℚ
  safety : Option ℚ

/-- The `scores.get(k, {})` default: a dict with no keys. -/
def CritiqueScoresDict.empty : CritiqueScoresDict :=
  { brand_alignment := none, visual_quality := none, message_clarity := none, safety := none }

/-- The slice of the `critique_result` dict that `_fallback_refinement` reads
(`scores` and the unused `issues`). -/
structure CritiqueResultDict where
  scores : Option CritiqueScoresDict
  issues : Option (List String)

/-- The dict returned by `_fallback_refinement`. -/
structure FallbackRefinementResult where
  source : String
  improved_prompt : String
  changes_made : List String
  focus_areas : List String
  iteration_strategy : String
  original_prompt : String

/-- Embeds `[k for k, v in scores.items() if v < 0.7]`, over the keys present in the
dict in its insertion order. -/
def focus_areas_below (scores : CritiqueScoresDict) : List String :=
  (match scores.brand_alignment with
   | some v => if v < 0.7 then ["brand_alignment"] else []
   | none => []) ++
  (match scores.visual_quality with
   | some v => if v < 0.7 then ["visual_quality"] else []
   | none => []) ++
  (match scores.message_clarity with
   | some v => if v < 0.7 then ["message_clarity"] else []
   | none => []) ++
  (match scores.safety with
   | some v => if v < 0.7 then ["safety"] else []
   | none => [])

/-- The `improvements` list accumulated by the four `if` statements. -/
def fallback_improvements (scores : CritiqueScoresDict) : List String :=
  (if scores.brand_alignment.getD 1.0 < 0.7 then ["professional branding"] else []) ++
  (if scores.visual_quality.getD 1.0 < 0.7 then ["high visual quality"] else []) ++
  (if scores.message_clarity.getD 1.0 < 0.7 then ["clear messaging"] else []) ++
  (if scores.safety.getD 1.0 < 0.9 then ["safe content"] else [])

/-- The `improved_prompt` accumulated by the four `improved_prompt += ...`
statements. -/
def fallback_improved_prompt (original_prompt : String) (scores : CritiqueScoresDict) :
    String :=
  original_prompt ++
  (if scores.brand_alignment.getD 1.0 < 0.7
   then ", with clear brand colors and logo placement" else "") ++
  (if scores.visual_quality.getD 1.0 < 0.7
   then ", sharp focus, professional photography, rule of thirds composition" else "") ++
  (if scores.message_clarity.getD 1.0 < 0.7
   then ", with bold clear text and obvious call-to-action" else "") ++
  (if scores.safety.getD 1.0 < 0.9
   then ", safe for all audiences, no controversial elements" else "")

/-- Embeds `RefinementAgent._fallback_refinement` (refinement_agent.py lines 203-243),
also the value `generate_improved_prompt` returns whenever `self.model` is `None`
(lines 47-48). -/
def fallback_refinement (original_prompt : String) (critique_result : CritiqueResultDict) :
    FallbackRefinementResult :=
  { source := "fallback_rules"
    improved_prompt :=
      fallback_improved_prompt original_prompt (critique_result.scores.getD .empty)
    changes_made := fallback_improvements (critique_result.scores.getD .empty)
    focus_areas := focus_areas_below (critique_result.scores.getD .empty)
    iteration_strategy := "Adding safety and quality keywords to original prompt"
    original_prompt := original_prompt }

/-! ## multi_agent_orchestrator.py (`MultiAgentOrchestrator.generate_and_refine`)

The four collaborator agents are external services; each call's outcome is modelled
by a function of the iteration number and the argument the orchestrator passes
(current prompt or image path), with `Except.error` standing for a raised
exception. -/

/-- Outcome of one `GenerationService.generate_ad` call: a result dict (whose keys
`success`, `image_path`, `error` may each be absent, modelled by `none`) or a
raised exception. -/
inductive GenOutcome
  | result (success : Bool) (image_path : Option String) (error : Option String)
  | exn (message : String)

/-- The critique dict as the orchestrator consumes it: it reads only
`critique.get("overall_score", 0.0)` and stores the payload. -/
structure CritiquePayload where
  overall_score : Option ℚ

/-- The descriptor agent's payload, stored and forwarded opaquely. -/
structure DescriptionData where
  payload : String

/-- The refinement dict as the orchestrator consumes it: it reads
`refinement.get("improved_prompt", current_prompt)` and stores the payload. -/
structure RefinementPayload where
  improved_prompt : Option String

/-- Per-call outcomes of the four collaborator agents. -/
structure Agents where
  generate : Nat → String → GenOutcome
  describe : Nat → String → Except String DescriptionData
  critique : Nat → String → Except String CritiquePayload
  refine : Nat → String → Except String RefinementPayload

/-- One entry of the `iterations` list (`iteration_result` in the source); a `none`
field models a dict key never set on the path taken. The `generation` sub-dict is
inlined as the three `gen_`-prefixed fields. -/
structure IterationRecord where
  iteration : Nat
  prompt : String
  gen_success : Option Bool
  gen_image_path : Option String
  gen_error : Option String
  description : Option (Except String DescriptionData)
  critique : Option (Except String CritiquePayload)
  overall_score : Option ℚ
  refinement : Option (Except String RefinementPayload)
  status : Option String
  reason : Option String

/-- The freshly-initialised `iteration_result` dict. -/
def initRecord (iteration : Nat) (prompt : String) : IterationRecord :=
  { iteration := iteration, prompt := prompt, gen_success := none, gen_image_path := none,
    gen_error := none, description := none, critique := none, overall_score := none,
    refinement := none, status := none, reason := none }

/-- The `best_ad` dict. -/
structure BestAd where
  iteration : Nat
  image_path : String
  score : ℚ
  critique : CritiquePayload
  description : DescriptionData
  prompt : String

/-- The loop-carried locals of `generate_and_refine`: the grown `iterations` list,
`best_ad`, `best_score`, and the function-local variable `description`, which
persists across loop iterations (and is unbound until the first successful
describe call — `none` here). -/
structure LoopState where
  iterations : List IterationRecord
  best_ad : Option BestAd
  best_score : ℚ
  description_var : Option DescriptionData

/-- Appends a finished iteration record (`iterations.append(iteration_result)`). -/
def appendRecord (st : LoopState) (r : IterationRecord) : LoopState :=
  { st with iterations := st.iterations ++ [r] }

/-- Whether the loop body ended in `break` (`halt`) or fell through to the next
iteration with the possibly-updated working prompt (`next`). -/
inductive StepOut
  | halt (st : LoopState)
  | next (st : LoopState) (prompt : String)

/-- Embeds `current_prompt = refinement.get("improved_prompt", current_prompt)`; on a
refinement exception the prompt is left unchanged. -/
def next_prompt_of (current_prompt : String) : Except String RefinementPayload → String
  | .ok r => r.improved_prompt.getD current_prompt
  | .error _ => current_prompt

/-- The tail of the loop body after the critique step: the threshold check and
`break`, the refinement step (only when `iteration < max_iterations`), the
trailing `status` assignment, and the append of the iteration record. -/
def finish_iteration (ag : Agents) (max_iterations : Nat) (score_threshold : ℚ)
    (iteration : Nat) (current_prompt : String) (r : IterationRecord) (st : LoopState)
    (score : ℚ) : StepOut :=
  if score ≥ score_threshold then
    .halt (appendRecord st { r with status := some "success", reason := some "threshold_met" })
  else
    .next
      (appendRecord st
        { (if iteration < max_iterations
           then { r with refinement := some (ag.refine iteration current_prompt) }
           else r) with
          status := some (if iteration < max_iterations then "refined" else "max_iterations") })
      (if iteration < max_iterations
       then next_prompt_of current_prompt (ag.refine iteration current_prompt)
       else current_prompt)

/-- One pass of the `for iteration in range(1, max_iterations + 1)` body
(multi_agent_orchestrator.py lines 90-208). -/
def run_iteration (ag : Agents) (max_iterations : Nat) (score_threshold : ℚ)
    (iteration : Nat) (current_prompt : String) (st : LoopState) : StepOut :=
  let r0 := initRecord iteration current_prompt
  match ag.generate iteration current_prompt with
  | .exn msg =>
    .halt (appendRecord st
      { r0 with
        gen_success := some false
        gen_error := some msg
        status := some "generation_error" })
  | .result false image_path error =>
    .halt (appendRecord st
      { r0 with
        gen_success := some false
        gen_image_path := image_path
        gen_error := error
        status := some "generation_failed" })
  | .result true none _ =>
    -- `ad_path = gen_result["image_path"]` raises `KeyError` inside the `try`;
    -- the handler overwrites the generation entry with success `False`
    .halt (appendRecord st
      { r0 with
        gen_success := some false
        gen_error := some "KeyError: image_path"
        status := some "generation_error" })
  | .result true (some ad_path) error =>
    let r1 :=
      { r0 with
        gen_success := some true
        gen_image_path := some ad_path
        gen_error := error }
    let desc := ag.describe iteration ad_path
    let r2 := { r1 with description := some desc }
    let description_var :=
      match desc with
      | .ok d => some d
      | .error _ => st.description_var
    let st1 : LoopState := { st with description_var := description_var }
    match ag.critique iteration ad_path with
    | .error e =>
      finish_iteration ag max_iterations score_threshold iteration current_prompt
        { r2 with critique := some (.error e), overall_score := some 0 } st1 0
    | .ok c =>
      if c.overall_score.getD 0 > st.best_score then
        match description_var with
        | some d =>
          finish_iteration ag max_iterations score_threshold iteration current_prompt
            { r2 with critique := some (.ok c), overall_score := some (c.overall_score.getD 0) }
            { st1 with
              best_score := c.overall_score.getD 0
              best_ad := some
                { iteration := iteration
                  image_path := ad_path
                  score := c.overall_score.getD 0
                  critique := c
                  description := d
                  prompt := current_prompt } }
            (c.overall_score.getD 0)
        | none =>
          -- building the `best_ad` dict reads the never-bound local `description`
          -- and raises `NameError`, caught by the critique handler after
          -- `best_score` was already reassigned
          finish_iteration ag max_iterations score_threshold iteration current_prompt
            { r2 with
              critique := some (.error "NameError: description")
              overall_score := some 0 }
            { st1 with best_score := c.overall_score.getD 0 } 0
      else
        finish_iteration ag max_iterations score_threshold iteration current_prompt
          { r2 with critique := some (.ok c), overall_score := some (c.overall_score.getD 0) }
          st1 (c.overall_score.getD 0)

/-- The iteration loop; `remaining` counts how many iterations `range` has left. -/
def loop_from (ag : Agents) (max_iterations : Nat) (score_threshold : ℚ) :
    Nat → Nat → String → LoopState → LoopState
  | 0, _, _, st => st
  | remaining + 1, iteration, current_prompt, st =>
    match run_iteration ag max_iterations score_threshold iteration current_prompt st with
    | .halt st1 => st1
    | .next st1 p1 =>
      loop_from ag max_iterations score_threshold remaining (iteration + 1) p1 st1

/-- The dict returned by `generate_and_refine` (timing fields are not modelled). -/
structure WorkflowResult where
  success : Bool
  iterations_count : Nat
  iterations : List IterationRecord
  best_ad : Option BestAd
  final_score : ℚ
  threshold_met : Bool
  config_max_iterations : Nat
  config_score_threshold : ℚ
  config_initial_prompt : String

/-- The locals as initialised before the loop. -/
def initState : LoopState :=
  { iterations := [], best_ad := none, best_score := 0, description_var := none }

/-- Embeds `MultiAgentOrchestrator.generate_and_refine` (multi_agent_orchestrator.py
lines 60-231). -/
def generate_and_refine (ag : Agents) (max_iterations : Nat) (score_threshold : ℚ)
    (prompt : String) : WorkflowResult :=
  { success := (loop_from ag max_iterations score_threshold max_iterations 1 prompt
      initState).best_ad.isSome
    iterations_count := (loop_from ag max_iterations score_threshold max_iterations 1 prompt
      initState).iterations.length
    iterations := (loop_from ag max_iterations score_threshold max_iterations 1 prompt
      initState).iterations
    best_ad := (loop_from ag max_iterations score_threshold max_iterations 1 prompt
      initState).best_ad
    final_score := (loop_from ag max_iterations score_threshold max_iterations 1 prompt
      initState).best_score
    threshold_met := decide ((loop_from ag max_iterations score_threshold max_iterations 1
      prompt initState).best_score ≥ score_threshold)
    config_max_iterations := max_iterations
    config_score_threshold := score_threshold
    config_initial_prompt := prompt }

/-! ## Concrete inputs used to instantiate the theorems -/

/-- A sample visual analysis record with the given sharpness and composition. -/
def sample_va (sharp comp : ℚ) : VisualAnalysis :=
  { sharpness := sharp
    composition := comp
    has_watermark := false
    has_artifacts := false
    resolution_width := 1024
    resolution_height := 1024
    aspect_ratio := "1:1" }

/-- A sample color analysis record with the given brand match. -/
def sample_ca (match_q : ℚ) : ColorAnalysis :=
  { dominant_colors := []
    color_palette := []
    brand_color_match := match_q
    color_harmony := 0.5 }

/-- A sample oracle dimension sub-dict with the given score. -/
def sample_dim (s : ℚ) : DimensionPayload :=
  { score := some s, confidence := some 0.9, issues := some [], suggestions := some [] }

/-- A sample oracle payload with the four given dimension scores. -/
def sample_ai (b v c s : ℚ) : AiCritique :=
  { brand_alignment := some (sample_dim b)
    visual_quality := some (sample_dim v)
    message_clarity := some (sample_dim c)
    safety_ethics := some (sample_dim s)
    overall_confidence := some 0.9
    detected_elements := none }

/-- A sample oracle payload with the given oracle-supplied overall confidence. -/
def sample_ai_conf (oc : ℚ) : AiCritique :=
  { sample_ai 0.8 0.8 0.8 0.8 with overall_confidence := some oc }

/-- Stub collaborator agents: generation behaves as `gen i` at iteration `i`,
description always succeeds, the critique of iteration `i` succeeds with overall
score `score i`, and refinement always succeeds suggesting the prompt
"improved". -/
def stubAgents (gen : Nat → GenOutcome) (score : Nat → ℚ) : Agents :=
  { generate := fun i _ => gen i
    describe := fun _ _ => .ok { payload := "description" }
    critique := fun i _ => .ok { overall_score := some (score i) }
    refine := fun _ _ => .ok { improved_prompt := some "improved" } }

/-- A generation service that always succeeds with a fixed path. -/
def genOk : Nat → GenOutcome := fun _ => .result true (some "ad.png") none

/-- Iteration scores drawn from a list (iteration `i` gets the `i`-th entry,
1-based; 0 past the end). -/
def scoresOf (scores : List ℚ) : Nat → ℚ := fun i => scores.getD (i - 1) 0

/-- A generation service succeeding before iteration `K` and failing from `K` on. -/
def genFailsAt (K : Nat) : Nat → GenOutcome := fun i =>
  if i < K then .result true (some "ad.png") none
  else .result false none (some "generation backend unavailable")

/-- The loop state carried out of a loop pass, whether it broke or fell through. -/
def StepOut.state : StepOut → LoopState
  | .halt st => st
  | .next st _ => st

/-- Derived form: the iteration record written by a loop pass whose generation,
description and critique calls all succeed with score below the threshold. -/
def okPassRecord (ag : Agents) (max_iterations k : Nat) (p path : String)
    (err : Option String) (d : DescriptionData) (c : CritiquePayload) : IterationRecord :=
  { iteration := k
    prompt := p
    gen_success := some true
    gen_image_path := some path
    gen_error := err
    description := some (.ok d)
    critique := some (.ok c)
    overall_score := some (c.overall_score.getD 0)
    refinement := if k < max_iterations then some (ag.refine k p) else none
    status := some (if k < max_iterations then "refined" else "max_iterations")
    reason := none }

/-- Derived form: the loop state after such a pass. -/
def okPassState (ag : Agents) (max_iterations k : Nat) (p path : String)
    (err : Option String) (d : DescriptionData) (c : CritiquePayload) (st : LoopState) :
    LoopState :=
  { iterations := st.iterations ++ [okPassRecord ag max_iterations k p path err d c]
    best_ad :=
      if c.overall_score.getD 0 > st.best_score
      then some
        { iteration := k
          image_path := path
          score := c.overall_score.getD 0
          critique := c
          description := d
          prompt := p }
      else st.best_ad
    best_score :=
      if c.overall_score.getD 0 > st.best_score
      then c.overall_score.getD 0 else st.best_score
    description_var := some d }

/-- Derived form: the working prompt after such a pass. -/
def okPassPrompt (ag : Agents) (max_iterations k : Nat) (p : String) : String :=
  if k < max_iterations then next_prompt_of p (ag.refine k p) else p

/-- The status the loop records when generation does not produce a usable image
(`none` when it does). -/
def genFailStatus : GenOutcome → Option String
  | .result false _ _ => some "generation_failed"
  | .result true none _ => some "generation_error"
  | .result true (some _) _ => none
  | .exn _ => some "generation_error"

/-! ## Theorems -/

/-- C1: for every compiled critique whose four dimension scores lie in [0,1], the
overall score equals 0.30·brand + 0.25·visual + 0.25·clarity + 0.20·safety exactly
(so in particular within floating tolerance), and it lies in [0,1]. -/
theorem overall_score_weighted_and_bounded
    (bk : Option BrandKit) (va : VisualAnalysis) (ca : ColorAnalysis) (ai : AiCritique)
    (hb : 0 ≤ (compile_critique bk va ca ai).brand_alignment.score ∧
      (compile_critique bk va ca ai).brand_alignment.score ≤ 1)
    (hv : 0 ≤ (compile_critique bk va ca ai).visual_quality.score ∧
      (compile_critique bk va ca ai).visual_quality.score ≤ 1)
    (hc : 0 ≤ (compile_critique bk va ca ai).message_clarity.score ∧
      (compile_critique bk va ca ai).message_clarity.score ≤ 1)
    (hs : 0 ≤ (compile_critique bk va ca ai).safety_ethics.score ∧
      (compile_critique bk va ca ai).safety_ethics.score ≤ 1) :
    (compile_critique bk va ca ai).overall_score =
      0.30 * (compile_critique bk va ca ai).brand_alignment.score +
      0.25 * (compile_critique bk va ca ai).visual_quality.score +
      0.25 * (compile_critique bk va ca ai).message_clarity.score +
      0.20 * (compile_critique bk va ca ai).safety_ethics.score ∧
    0 ≤ (compile_critique bk va ca ai).overall_score ∧
    (compile_critique bk va ca ai).overall_score ≤ 1 := by
  obtain ⟨hb0, hb1⟩ := hb
  obtain ⟨hv0, hv1⟩ := hv
  obtain ⟨hc0, hc1⟩ := hc
  obtain ⟨hs0, hs1⟩ := hs
  simp only [compile_critique, overall_score] at *
  refine ⟨by ring, by nlinarith, by nlinarith⟩

/-- Witness for C1: the hypotheses hold and the conclusion is obtained from the
theorem at a concrete input. -/
theorem overall_score_weighted_and_bounded_witness :
    ((0 ≤ (compile_critique none (sample_va 0.8 0.6) (sample_ca 0.8)
        (sample_ai 0.8 0.8 0.8 0.8)).brand_alignment.score ∧
      (compile_critique none (sample_va 0.8 0.6) (sample_ca 0.8)
        (sample_ai 0.8 0.8 0.8 0.8)).brand_alignment.score ≤ 1) ∧
     (0 ≤ (compile_critique none (sample_va 0.8 0.6) (sample_ca 0.8)
        (sample_ai 0.8 0.8 0.8 0.8)).visual_quality.score ∧
      (compile_critique none (sample_va 0.8 0.6) (sample_ca 0.8)
        (sample_ai 0.8 0.8 0.8 0.8)).visual_quality.score ≤ 1) ∧
     (0 ≤ (compile_critique none (sample_va 0.8 0.6) (sample_ca 0.8)
        (sample_ai 0.8 0.8 0.8 0.8)).message_clarity.score ∧
      (compile_critique none (sample_va 0.8 0.6) (sample_ca 0.8)
        (sample_ai 0.8 0.8 0.8 0.8)).message_clarity.score ≤ 1) ∧
     (0 ≤ (compile_critique none (sample_va 0.8 0.6) (sample_ca 0.8)
        (sample_ai 0.8 0.8 0.8 0.8)).safety_ethics.score ∧
      (compile_critique none (sample_va 0.8 0.6) (sample_ca 0.8)
        (sample_ai 0.8 0.8 0.8 0.8)).safety_ethics.score ≤ 1)) ∧
    (0 ≤ (compile_critique none (sample_va 0.8 0.6) (sample_ca 0.8)
      (sample_ai 0.8 0.8 0.8 0.8)).overall_score ∧
     (compile_critique none (sample_va 0.8 0.6) (sample_ca 0.8)
      (sample_ai 0.8 0.8 0.8 0.8)).overall_score ≤ 1) := by
  have hb : 0 ≤ (compile_critique none (sample_va 0.8 0.6) (sample_ca 0.8)
      (sample_ai 0.8 0.8 0.8 0.8)).brand_alignment.score ∧
      (compile_critique none (sample_va 0.8 0.6) (sample_ca 0.8)
      (sample_ai 0.8 0.8 0.8 0.8)).brand_alignment.score ≤ 1 := by
    norm_num [compile_critique, brand_alignment, brand_score, brand_score_data,
      sample_ai, sample_dim]
  have hv : 0 ≤ (compile_critique none (sample_va 0.8 0.6) (sample_ca 0.8)
      (sample_ai 0.8 0.8 0.8 0.8)).visual_quality.score ∧
      (compile_critique none (sample_va 0.8 0.6) (sample_ca 0.8)
      (sample_ai 0.8 0.8 0.8 0.8)).visual_quality.score ≤ 1 := by
    norm_num [compile_critique, visual_quality, quality_score, quality_score_data,
      sample_ai, sample_dim, sample_va]
  have hc : 0 ≤ (compile_critique none (sample_va 0.8 0.6) (sample_ca 0.8)
      (sample_ai 0.8 0.8 0.8 0.8)).message_clarity.score ∧
      (compile_critique none (sample_va 0.8 0.6) (sample_ca 0.8)
      (sample_ai 0.8 0.8 0.8 0.8)).message_clarity.score ≤ 1 := by
    norm_num [compile_critique, message_clarity, clarity_score_data, sample_ai, sample_dim]
  have hs : 0 ≤ (compile_critique none (sample_va 0.8 0.6) (sample_ca 0.8)
      (sample_ai 0.8 0.8 0.8 0.8)).safety_ethics.score ∧
      (compile_critique none (sample_va 0.8 0.6) (sample_ca 0.8)
      (sample_ai 0.8 0.8 0.8 0.8)).safety_ethics.score ≤ 1 := by
    norm_num [compile_critique, safety_ethics, safety_score_data, sample_ai, sample_dim]
  exact ⟨⟨hb, hv, hc, hs⟩,
    (overall_score_weighted_and_bounded none (sample_va 0.8 0.6) (sample_ca 0.8)
      (sample_ai 0.8 0.8 0.8 0.8) hb hv hc hs).2⟩

/-- C7: with a brand kit the compiled brand-alignment score is the mean of the
oracle brand score (default 0.5) and the measured brand color match, otherwise the
oracle score unmodified; the compiled visual-quality score is always the mean of
the oracle visual score (default 0.5), the measured sharpness and the measured
composition. -/
theorem compiled_score_blending (bk : BrandKit) (obk : Option BrandKit)
    (va : VisualAnalysis) (ca : ColorAnalysis) (ai : AiCritique) :
    (compile_critique (some bk) va ca ai).brand_alignment.score =
      ((ai.brand_alignment.getD .empty).score.getD 0.5 + ca.brand_color_match) / 2 ∧
    (compile_critique none va ca ai).brand_alignment.score =
      (ai.brand_alignment.getD .empty).score.getD 0.5 ∧
    (compile_critique obk va ca ai).visual_quality.score =
      ((ai.visual_quality.getD .empty).score.getD 0.5 + va.sharpness + va.composition) / 3 := by
  refine ⟨?_, ?_, ?_⟩ <;>
    simp [compile_critique, brand_alignment, brand_score, brand_score_data,
      visual_quality, quality_score, quality_score_data]

/-- Witness for C7 at a concrete input (the theorem has no propositional
hypotheses; this instantiates it). -/
theorem compiled_score_blending_witness :
    (compile_critique (some ⟨"b1", "Brand", [], []⟩) (sample_va 0.8 0.6) (sample_ca 0.9)
      (sample_ai 0.7 0.7 0.7 0.7)).brand_alignment.score =
      (((sample_ai 0.7 0.7 0.7 0.7).brand_alignment.getD .empty).score.getD 0.5 + 0.9) / 2 := by
  have h := compiled_score_blending ⟨"b1", "Brand", [], []⟩ none (sample_va 0.8 0.6)
    (sample_ca 0.9) (sample_ai 0.7 0.7 0.7 0.7)
  simpa [sample_ca] using h.1

/-- C10: the compiled critique's approval status is "approved" exactly when it is
ready to deploy and "pending" otherwise; "rejected" is never produced. -/
theorem approval_status_follows_gate (bk : Option BrandKit) (va : VisualAnalysis)
    (ca : ColorAnalysis) (ai : AiCritique) :
    ((compile_critique bk va ca ai).approval_status = "approved" ↔
      (compile_critique bk va ca ai).ready_to_deploy = true) ∧
    ((compile_critique bk va ca ai).approval_status = "pending" ↔
      (compile_critique bk va ca ai).ready_to_deploy = false) ∧
    (compile_critique bk va ca ai).approval_status ≠ "rejected" := by
  simp only [compile_critique]
  rcases h : ready_to_deploy bk va ca ai <;> simp [h]

/-- C2: for every compiled critique, `ready_to_deploy` holds iff the four compiled
dimension scores clear the configured minimums (brand ≥ 0.70, visual ≥ 0.60,
safety ≥ 0.90, clarity ≥ 0.70), independent of the overall score; in particular
the compiled scores brand = visual = clarity = 0.95, safety = 0.50 give
`ready_to_deploy = false`. -/
theorem ready_to_deploy_iff_dimension_minimums :
    (∀ (bk : Option BrandKit) (va : VisualAnalysis) (ca : ColorAnalysis) (ai : AiCritique),
      (compile_critique bk va ca ai).ready_to_deploy = true ↔
        ((compile_critique bk va ca ai).brand_alignment.score ≥ 0.70 ∧
         (compile_critique bk va ca ai).visual_quality.score ≥ 0.60 ∧
         (compile_critique bk va ca ai).safety_ethics.score ≥ 0.90 ∧
         (compile_critique bk va ca ai).message_clarity.score ≥ 0.70)) ∧
    ((compile_critique none (sample_va 0.95 0.95) (sample_ca 0.8)
        (sample_ai 0.95 0.95 0.95 0.5)).brand_alignment.score = 0.95 ∧
     (compile_critique none (sample_va 0.95 0.95) (sample_ca 0.8)
        (sample_ai 0.95 0.95 0.95 0.5)).visual_quality.score = 0.95 ∧
     (compile_critique none (sample_va 0.95 0.95) (sample_ca 0.8)
        (sample_ai 0.95 0.95 0.95 0.5)).message_clarity.score = 0.95 ∧
     (compile_critique none (sample_va 0.95 0.95) (sample_ca 0.8)
        (sample_ai 0.95 0.95 0.95 0.5)).safety_ethics.score = 0.50 ∧
     (compile_critique none (sample_va 0.95 0.95) (sample_ca 0.8)
        (sample_ai 0.95 0.95 0.95 0.5)).ready_to_deploy = false) := by
  constructor
  · intro bk va ca ai
    simp only [compile_critique, ready_to_deploy, settings, decide_eq_true_eq]
    norm_num
  · norm_num [compile_critique, ready_to_deploy, brand_alignment, visual_quality,
      message_clarity, safety_ethics, brand_score, quality_score, brand_score_data,
      quality_score_data, clarity_score_data, safety_score_data, settings,
      sample_va, sample_ca, sample_ai, sample_dim, decide_eq_false_iff_not]

/-- C6: the compiled critique needs manual review iff its overall confidence is
strictly below 0.65, where the overall confidence is the oracle-supplied value
when present and otherwise the unweighted mean of the four per-dimension
confidences (each defaulting to 0.5); an overall confidence of exactly 0.65 does
not flag review, 0.649 does. -/
theorem needs_manual_review_iff_confidence :
    (∀ (bk : Option BrandKit) (va : VisualAnalysis) (ca : ColorAnalysis) (ai : AiCritique),
      ((compile_critique bk va ca ai).needs_manual_review = true ↔
        (compile_critique bk va ca ai).overall_confidence < 0.65) ∧
      (compile_critique bk va ca ai).overall_confidence =
        ai.overall_confidence.getD
          (((ai.brand_alignment.getD .empty).confidence.getD 0.5 +
            (ai.visual_quality.getD .empty).confidence.getD 0.5 +
            (ai.message_clarity.getD .empty).confidence.getD 0.5 +
            (ai.safety_ethics.getD .empty).confidence.getD 0.5) / 4)) ∧
    (compile_critique none (sample_va 0.8 0.6) (sample_ca 0.8)
      (sample_ai_conf 0.65)).needs_manual_review = false ∧
    (compile_critique none (sample_va 0.8 0.6) (sample_ca 0.8)
      (sample_ai_conf 0.649)).needs_manual_review = true := by
  refine ⟨fun bk va ca ai => ⟨?_, ?_⟩, ?_, ?_⟩
  · simp [compile_critique, needs_manual_review]
  · simp [compile_critique, overall_confidence, brand_confidence, quality_confidence,
      clarity_confidence, safety_confidence, brand_score_data, quality_score_data,
      clarity_score_data, safety_score_data]
  · norm_num [compile_critique, needs_manual_review, overall_confidence,
      sample_ai_conf, sample_ai, sample_dim, decide_eq_false_iff_not]
  · norm_num [compile_critique, needs_manual_review, overall_confidence,
      sample_ai_conf, sample_ai, sample_dim]

/-- C3 (code refutation): with measured sharpness 0.8 and composition 0.6, an
unparsable oracle response yields a critique whose visual quality is 19/30 — not
the claimed CV mean (0.8+0.6)/2 = 0.7, because `_parse_gemini_response` calls the
fallback without the image path — and whose message clarity is the 0.5 constant.
When the oracle call itself raises, the visual quality does reduce to the CV mean,
but message clarity is again 0.5: `VisualAnalysis` has no `contrast` attribute, so
the assignment `clarity_score = visual_analysis.contrast` raises and is swallowed.
`detected_elements.ai_analysis_available = false` does hold on both paths. -/
theorem fallback_critique_ignores_cv_metrics :
    ((critique_ad (sample_va 0.8 0.6) (sample_ca 0.8) none
        (.ok (.unparsable "not json"))).visual_quality.score = 19/30 ∧
     (critique_ad (sample_va 0.8 0.6) (sample_ca 0.8) none
        (.ok (.unparsable "not json"))).visual_quality.score ≠
       ((sample_va 0.8 0.6).sharpness + (sample_va 0.8 0.6).composition) / 2 ∧
     (critique_ad (sample_va 0.8 0.6) (sample_ca 0.8) none
        (.ok (.unparsable "not json"))).message_clarity.score = 0.5 ∧
     (critique_ad (sample_va 0.8 0.6) (sample_ca 0.8) none
        (.ok (.unparsable "not json"))).detected_elements.ai_analysis_available =
       some false) ∧
    ((critique_ad (sample_va 0.8 0.6) (sample_ca 0.8) none
        (.error "oracle raised")).visual_quality.score =
       ((sample_va 0.8 0.6).sharpness + (sample_va 0.8 0.6).composition) / 2 ∧
     (critique_ad (sample_va 0.8 0.6) (sample_ca 0.8) none
        (.error "oracle raised")).message_clarity.score = 0.5 ∧
     (critique_ad (sample_va 0.8 0.6) (sample_ca 0.8) none
        (.error "oracle raised")).detected_elements.ai_analysis_available =
       some false) := by
  norm_num [critique_ad, get_gemini_critique, parse_gemini_response,
    get_fallback_critique, fallback_quality_score, compile_critique, visual_quality,
    message_clarity, quality_score, quality_score_data, clarity_score_data,
    compiled_detected_elements, sample_va, sample_ca]

/-- C9 (counterexample): all four dimensions score 0.8 — none below 0.70 — yet the
fallback refinement does not return the original prompt unchanged: the safety
cutoff in the code is 0.90, so the safety directive is still appended. -/
theorem fallback_refinement_strict_070_refuted :
    (fallback_refinement "A product ad"
      { scores := some
          { brand_alignment := some 0.8
            visual_quality := some 0.8
            message_clarity := some 0.8
            safety := some 0.8 }
        issues := some [] }).improved_prompt ≠ "A product ad" := by
  norm_num [fallback_refinement, fallback_improved_prompt]
  decide

/-- C9 (amended): the fallback refinement output is a function of the original
prompt and the critique's `scores` dict alone (so two invocations on the same
critique agree), and the improved prompt is exactly the original prompt with a
directive phrase appended for each of brand/visual/clarity scoring below 0.70 and
for safety scoring below 0.90 (missing scores default to 1.0); in particular it is
the unchanged original prompt when no dimension triggers. -/
theorem fallback_refinement_deterministic_appends (p : String) (cr : CritiqueResultDict) :
    (∀ cr2 : CritiqueResultDict, cr.scores = cr2.scores →
      fallback_refinement p cr = fallback_refinement p cr2) ∧
    (fallback_refinement p cr).improved_prompt =
      p ++
      (if (cr.scores.getD .empty).brand_alignment.getD 1.0 < 0.7
       then ", with clear brand colors and logo placement" else "") ++
      (if (cr.scores.getD .empty).visual_quality.getD 1.0 < 0.7
       then ", sharp focus, professional photography, rule of thirds composition" else "") ++
      (if (cr.scores.getD .empty).message_clarity.getD 1.0 < 0.7
       then ", with bold clear text and obvious call-to-action" else "") ++
      (if (cr.scores.getD .empty).safety.getD 1.0 < 0.9
       then ", safe for all audiences, no controversial elements" else "") ∧
    ((cr.scores.getD .empty).brand_alignment.getD 1.0 ≥ 0.7 →
     (cr.scores.getD .empty).visual_quality.getD 1.0 ≥ 0.7 →
     (cr.scores.getD .empty).message_clarity.getD 1.0 ≥ 0.7 →
     (cr.scores.getD .empty).safety.getD 1.0 ≥ 0.9 →
      (fallback_refinement p cr).improved_prompt = p) ∧
    (fallback_refinement p cr).original_prompt = p := by
  refine ⟨?_, ?_, ?_, ?_⟩
  · intro cr2 h
    simp [fallback_refinement, h]
  · simp [fallback_refinement, fallback_improved_prompt]
  · intro h1 h2 h3 h4
    simp [fallback_refinement, fallback_improved_prompt, not_lt.mpr h1, not_lt.mpr h2,
      not_lt.mpr h3, not_lt.mpr h4]
  · simp [fallback_refinement]

/-- Witness for C9's amended theorem: applied at a critique whose only weak
dimension is visual quality, every hypothesis discharged concretely. -/
theorem fallback_refinement_deterministic_appends_witness :
    (fallback_refinement "A product ad"
      { scores := some
          { brand_alignment := some 0.8
            visual_quality := some 0.5
            message_clarity := some 0.8
            safety := some 0.95 }
        issues := some [] }).improved_prompt =
      "A product ad, sharp focus, professional photography, rule of thirds composition" := by
  have h := (fallback_refinement_deterministic_appends "A product ad"
    { scores := some
        { brand_alignment := some 0.8
          visual_quality := some 0.5
          message_clarity := some 0.8
          safety := some 0.95 }
      issues := some [] }).2.1
  rw [h]
  norm_num
  decide

/-- A loop pass whose generation, description and critique calls succeed and whose
score stays below the threshold continues the loop with the derived record, state
and prompt. -/
theorem run_iteration_ok_below (ag : Agents) (max_iterations : Nat) (θ : ℚ)
    (k : Nat) (p : String) (st : LoopState) (path : String) (err : Option String)
    (d : DescriptionData) (c : CritiquePayload)
    (hg : ag.generate k p = .result true (some path) err)
    (hd : ag.describe k path = .ok d)
    (hc : ag.critique k path = .ok c)
    (hlow : c.overall_score.getD 0 < θ) :
    run_iteration ag max_iterations θ k p st =
      .next (okPassState ag max_iterations k p path err d c st)
        (okPassPrompt ag max_iterations k p) := by
  simp only [run_iteration, hg, hd, hc]
  by_cases hgt : c.overall_score.getD 0 > st.best_score <;>
    by_cases hk : k < max_iterations <;>
      simp [finish_iteration, hgt, hk, not_le.mpr hlow, okPassState, okPassRecord,
        okPassPrompt, appendRecord, initRecord]

/-- One unfolding of the loop along a fully-successful, below-threshold pass. -/
theorem loop_from_ok_below_step (ag : Agents) (max_iterations : Nat) (θ : ℚ)
    (n k : Nat) (p : String) (st : LoopState) (path : String) (err : Option String)
    (d : DescriptionData) (c : CritiquePayload)
    (hg : ag.generate k p = .result true (some path) err)
    (hd : ag.describe k path = .ok d)
    (hc : ag.critique k path = .ok c)
    (hlow : c.overall_score.getD 0 < θ) :
    loop_from ag max_iterations θ (n + 1) k p st =
      loop_from ag max_iterations θ n (k + 1) (okPassPrompt ag max_iterations k p)
        (okPassState ag max_iterations k p path err d c st) := by
  rw [loop_from, run_iteration_ok_below ag max_iterations θ k p st path err d c hg hd hc hlow]

/-- Auxiliary induction: when every generation, description and critique call
succeeds and every critique score stays strictly below the threshold, each loop
pass appends exactly one record, the running best stays below the threshold and
equals the fold-maximum of the recorded scores, and the final pass's record gets
status "max_iterations". -/
theorem loop_from_all_below (ag : Agents) (max_iterations : Nat) (θ : ℚ)
    (hgen : ∀ i p, ∃ path err, ag.generate i p = GenOutcome.result true (some path) err)
    (hdesc : ∀ i p, ∃ d, ag.describe i p = .ok d)
    (hcrit : ∀ i p, ∃ c, ag.critique i p = .ok c ∧ c.overall_score.getD 0 < θ) :
    ∀ (r k : Nat) (p : String) (st : LoopState), k + r = max_iterations + 1 →
      st.best_score < θ →
      st.best_score =
        (st.iterations.filterMap IterationRecord.overall_score).foldl max 0 →
      (loop_from ag max_iterations θ r k p st).iterations.length =
        st.iterations.length + r ∧
      (loop_from ag max_iterations θ r k p st).best_score < θ ∧
      (loop_from ag max_iterations θ r k p st).best_score =
        ((loop_from ag max_iterations θ r k p st).iterations.filterMap
          IterationRecord.overall_score).foldl max 0 ∧
      (1 ≤ r →
        ((loop_from ag max_iterations θ r k p st).iterations.getLast?.bind
          IterationRecord.status) = some "max_iterations") := by
  intro r
  induction r with
  | zero =>
    intro k p st hkr hb hinv
    exact ⟨by simp [loop_from], by simpa [loop_from] using hb,
      by simpa [loop_from] using hinv, fun h => absurd h (by omega)⟩
  | succ n ih =>
    intro k p st hkr hb hinv
    obtain ⟨path, err, hg⟩ := hgen k p
    obtain ⟨d, hd⟩ := hdesc k path
    obtain ⟨c, hc, hlow⟩ := hcrit k path
    rw [loop_from_ok_below_step ag max_iterations θ n k p st path err d c hg hd hc hlow]
    have hb2 : (okPassState ag max_iterations k p path err d c st).best_score < θ := by
      simp only [okPassState]
      split
      · exact hlow
      · exact hb
    have hinv2 : (okPassState ag max_iterations k p path err d c st).best_score =
        ((okPassState ag max_iterations k p path err d c st).iterations.filterMap
          IterationRecord.overall_score).foldl max 0 := by
      simp only [okPassState, okPassRecord, List.filterMap_append, List.foldl_append]
      simp only [List.filterMap_cons, List.filterMap_nil, List.foldl_cons, List.foldl_nil]
      rw [← hinv]
      by_cases hgt : c.overall_score.getD 0 > st.best_score
      · rw [if_pos hgt, max_eq_right hgt.le]
      · rw [if_neg hgt, max_eq_left (not_lt.mp hgt)]
    obtain ⟨L, B, I, S⟩ := ih (k + 1) (okPassPrompt ag max_iterations k p)
      (okPassState ag max_iterations k p path err d c st) (by omega) hb2 hinv2
    refine ⟨?_, B, I, ?_⟩
    · rw [L]
      simp only [okPassState, List.length_append, List.length_cons, List.length_nil]
      omega
    · intro _
      cases n with
      | zero =>
        have hkmax : k = max_iterations := by omega
        simp only [loop_from, okPassState, okPassRecord]
        rw [List.getLast?_concat]
        simp [hkmax]
      | succ m => exact S (by omega)

/-- C5: a run in which every generation and description succeeds and every
critique score stays strictly below the (positive) threshold executes exactly
`max_iterations` iterations, marks the final iteration "max_iterations", reports
as final score the running maximum of the per-iteration scores (the best score,
not the last iteration's score, and equal to the best ad's score), and reports
`threshold_met = (final_score ≥ threshold) = false`. -/
theorem generate_and_refine_exhausts_iterations (ag : Agents) (max_iterations : Nat)
    (θ : ℚ) (prompt : String) (hmax : 1 ≤ max_iterations) (hθ : 0 < θ)
    (hgen : ∀ i p, ∃ path err, ag.generate i p = GenOutcome.result true (some path) err)
    (hdesc : ∀ i p, ∃ d, ag.describe i p = .ok d)
    (hcrit : ∀ i p, ∃ c, ag.critique i p = .ok c ∧ c.overall_score.getD 0 < θ) :
    (generate_and_refine ag max_iterations θ prompt).iterations_count = max_iterations ∧
    ((generate_and_refine ag max_iterations θ prompt).iterations.getLast?.bind
      IterationRecord.status) = some "max_iterations" ∧
    (generate_and_refine ag max_iterations θ prompt).final_score =
      ((generate_and_refine ag max_iterations θ prompt).iterations.filterMap
        IterationRecord.overall_score).foldl max 0 ∧
    (generate_and_refine ag max_iterations θ prompt).threshold_met =
      decide ((generate_and_refine ag max_iterations θ prompt).final_score ≥ θ) ∧
    (generate_and_refine ag max_iterations θ prompt).threshold_met = false := by
  obtain ⟨L, B, I, S⟩ := loop_from_all_below ag max_iterations θ hgen hdesc hcrit
    max_iterations 1 prompt initState (by omega)
    (by simpa [initState] using hθ) (by simp [initState])
  refine ⟨?_, ?_, ?_, ?_, ?_⟩
  · simpa [generate_and_refine, initState] using L
  · simpa [generate_and_refine] using S hmax
  · simpa [generate_and_refine] using I
  · simp [generate_and_refine]
  · simp only [generate_and_refine]
    simpa [decide_eq_false_iff_not, not_le] using B

/-- Witness for C5: a critique stub always scoring 0.40 against threshold 0.75
with three iterations, every hypothesis discharged concretely. -/
theorem generate_and_refine_exhausts_iterations_witness :
    (generate_and_refine (stubAgents genOk (fun _ => 0.40)) 3 0.75
      "seed").iterations_count = 3 ∧
    ((generate_and_refine (stubAgents genOk (fun _ => 0.40)) 3 0.75
      "seed").iterations.getLast?.bind IterationRecord.status) = some "max_iterations" ∧
    (generate_and_refine (stubAgents genOk (fun _ => 0.40)) 3 0.75 "seed").final_score =
      ((generate_and_refine (stubAgents genOk (fun _ => 0.40)) 3 0.75
        "seed").iterations.filterMap IterationRecord.overall_score).foldl max 0 ∧
    (generate_and_refine (stubAgents genOk (fun _ => 0.40)) 3 0.75 "seed").threshold_met =
      decide ((generate_and_refine (stubAgents genOk (fun _ => 0.40)) 3 0.75
        "seed").final_score ≥ 0.75) ∧
    (generate_and_refine (stubAgents genOk (fun _ => 0.40)) 3 0.75 "seed").threshold_met =
      false :=
  generate_and_refine_exhausts_iterations (stubAgents genOk (fun _ => 0.40)) 3 0.75 "seed"
    (by norm_num) (by norm_num)
    (fun _ _ => ⟨"ad.png", none, rfl⟩)
    (fun _ _ => ⟨⟨"description"⟩, rfl⟩)
    (fun _ _ => ⟨⟨some 0.40⟩, rfl, by norm_num⟩)

/-- C4: in any loop pass whose generation, description and critique succeed, the
best ad carried out of the pass is the current iteration exactly when its score
strictly exceeds the running best, and the previous best otherwise — ties keep
the earlier iteration; concretely, iteration scores [0.80, 0.80, 0.90] make
iteration 3 best and scores [0.90, 0.80] keep iteration 1 best. -/
theorem best_ad_strict_improvement :
    (∀ (ag : Agents) (max_iterations : Nat) (θ : ℚ) (k : Nat) (p : String)
        (st : LoopState) (path : String) (err : Option String) (d : DescriptionData)
        (c : CritiquePayload),
      ag.generate k p = GenOutcome.result true (some path) err →
      ag.describe k path = .ok d →
      ag.critique k path = .ok c →
      (run_iteration ag max_iterations θ k p st).state.best_ad =
        (if c.overall_score.getD 0 > st.best_score
         then some
           { iteration := k
             image_path := path
             score := c.overall_score.getD 0
             critique := c
             description := d
             prompt := p }
         else st.best_ad)) ∧
    (generate_and_refine (stubAgents genOk (scoresOf [0.8, 0.8, 0.9])) 3 0.95
      "P").best_ad.map BestAd.iteration = some 3 ∧
    (generate_and_refine (stubAgents genOk (scoresOf [0.9, 0.8])) 2 0.95
      "P").best_ad.map BestAd.iteration = some 1 := by
  refine ⟨?_, ?_, ?_⟩
  · intro ag max_iterations θ k p st path err d c hg hd hc
    simp only [run_iteration, hg, hd, hc]
    by_cases hgt : c.overall_score.getD 0 > st.best_score <;>
      by_cases hth : c.overall_score.getD 0 ≥ θ <;>
        simp [finish_iteration, hgt, hth, StepOut.state, appendRecord]
  · norm_num [generate_and_refine, loop_from, run_iteration, finish_iteration,
      stubAgents, genOk, scoresOf, initState, initRecord, appendRecord, next_prompt_of,
      List.getD]
  · norm_num [generate_and_refine, loop_from, run_iteration, finish_iteration,
      stubAgents, genOk, scoresOf, initState, initRecord, appendRecord, next_prompt_of,
      List.getD]

/-- Witness for C4's universal part: a tie (current score 0.8 equal to the running
best 0.8) leaves the best ad of iteration 1 in place. -/
theorem best_ad_strict_improvement_witness :
    (run_iteration (stubAgents genOk (scoresOf [0.8, 0.8, 0.9])) 3 0.95 2 "P"
      { iterations := []
        best_ad := some
          { iteration := 1
            image_path := "ad.png"
            score := 0.8
            critique := { overall_score := some 0.8 }
            description := { payload := "description" }
            prompt := "P" }
        best_score := 0.8
        description_var := some { payload := "description" } }).state.best_ad =
      some
        { iteration := 1
          image_path := "ad.png"
          score := 0.8
          critique := { overall_score := some 0.8 }
          description := { payload := "description" }
          prompt := "P" } := by
  have h := best_ad_strict_improvement.1 (stubAgents genOk (scoresOf [0.8, 0.8, 0.9]))
    3 0.95 2 "P"
    { iterations := []
      best_ad := some
        { iteration := 1
          image_path := "ad.png"
          score := 0.8
          critique := { overall_score := some 0.8 }
          description := { payload := "description" }
          prompt := "P" }
      best_score := 0.8
      description_var := some { payload := "description" } }
    "ad.png" none { payload := "description" } { overall_score := some 0.8 } rfl rfl rfl
  rw [h]
  norm_num

/-- A loop pass whose generation call does not produce a usable image halts the
loop at once, appending a record that carries the failure status and no critique,
score or refinement entry. -/
theorem run_iteration_gen_fail (ag : Agents) (max_iterations : Nat) (θ : ℚ)
    (k : Nat) (p : String) (st : LoopState) (g : GenOutcome) (s : String)
    (hg : ag.generate k p = g) (hs : genFailStatus g = some s) :
    ∃ rec : IterationRecord,
      run_iteration ag max_iterations θ k p st = .halt (appendRecord st rec) ∧
      rec.status = some s ∧ rec.critique = none ∧ rec.refinement = none ∧
      rec.overall_score = none := by
  cases g with
  | exn m =>
    simp only [genFailStatus, Option.some.injEq] at hs
    subst hs
    refine ⟨
      { initRecord k p with
        gen_success := some false
        gen_error := some m
        status := some "generation_error" }, ?_, ?_, ?_, ?_, ?_⟩
    · simp only [run_iteration, hg]
    · simp [initRecord]
    · simp [initRecord]
    · simp [initRecord]
    · simp [initRecord]
  | result success ip err =>
    cases success with
    | false =>
      simp only [genFailStatus, Option.some.injEq] at hs
      subst hs
      refine ⟨
        { initRecord k p with
          gen_success := some false
          gen_image_path := ip
          gen_error := err
          status := some "generation_failed" }, ?_, ?_, ?_, ?_, ?_⟩
      · simp only [run_iteration, hg]
      · simp [initRecord]
      · simp [initRecord]
      · simp [initRecord]
      · simp [initRecord]
    | true =>
      cases ip with
      | none =>
        simp only [genFailStatus, Option.some.injEq] at hs
        subst hs
        refine ⟨
          { initRecord k p with
            gen_success := some false
            gen_error := some "KeyError: image_path"
            status := some "generation_error" }, ?_, ?_, ?_, ?_, ?_⟩
        · simp only [run_iteration, hg]
        · simp [initRecord]
        · simp [initRecord]
        · simp [initRecord]
        · simp [initRecord]
      | some path => simp [genFailStatus] at hs

/-- Auxiliary induction: when generation succeeds with below-threshold critiques
before iteration `K` and does not produce a usable image at `K`, the loop runs
exactly through iteration `K` and its last record carries the failure status and
no critique or refinement entry. -/
theorem loop_from_gen_fail (ag : Agents) (max_iterations : Nat) (θ : ℚ) (K : Nat)
    (g : GenOutcome) (s : String)
    (hgen : ∀ i p, i < K →
      ∃ path err, ag.generate i p = GenOutcome.result true (some path) err)
    (hdesc : ∀ i p, ∃ d, ag.describe i p = .ok d)
    (hcrit : ∀ i p, ∃ c, ag.critique i p = .ok c ∧ c.overall_score.getD 0 < θ)
    (hfail : ∀ p, ag.generate K p = g) (hgs : genFailStatus g = some s)
    (hK : K ≤ max_iterations) :
    ∀ (r k : Nat) (p : String) (st : LoopState), k + r = max_iterations + 1 → k ≤ K →
      (loop_from ag max_iterations θ r k p st).iterations.length =
        st.iterations.length + (K + 1 - k) ∧
      ((loop_from ag max_iterations θ r k p st).iterations.getLast?.bind
        IterationRecord.status) = some s ∧
      ((loop_from ag max_iterations θ r k p st).iterations.getLast?.map
        IterationRecord.critique) = some none ∧
      ((loop_from ag max_iterations θ r k p st).iterations.getLast?.map
        IterationRecord.refinement) = some none := by
  intro r
  induction r with
  | zero =>
    intro k p st hkr hkK
    exact ((by omega : False)).elim
  | succ n ih =>
    intro k p st hkr hkK
    rcases Nat.lt_or_ge k K with hlt | hge
    · obtain ⟨path, err, hg⟩ := hgen k p hlt
      obtain ⟨d, hd⟩ := hdesc k path
      obtain ⟨c, hc, hlow⟩ := hcrit k path
      rw [loop_from_ok_below_step ag max_iterations θ n k p st path err d c hg hd hc hlow]
      obtain ⟨L, S, C, R⟩ := ih (k + 1) (okPassPrompt ag max_iterations k p)
        (okPassState ag max_iterations k p path err d c st) (by omega) (by omega)
      refine ⟨?_, S, C, R⟩
      rw [L]
      simp only [okPassState, List.length_append, List.length_cons, List.length_nil]
      omega
    · have hkK' : k = K := le_antisymm hkK hge
      subst hkK'
      obtain ⟨rec, hstep, hst, hcr, hrf, _⟩ :=
        run_iteration_gen_fail ag max_iterations θ k p st g s (hfail p) hgs
      simp only [loop_from, hstep]
      refine ⟨?_, ?_, ?_, ?_⟩
      · simp only [appendRecord, List.length_append, List.length_cons, List.length_nil]
        omega
      · simp [appendRecord, List.getLast?_concat, hst]
      · simp [appendRecord, List.getLast?_concat, hcr]
      · simp [appendRecord, List.getLast?_concat, hrf]

/-- C8: a generation failure (success false) or generation exception at iteration
`K` (after successful, below-threshold iterations) terminates the run at exactly
`K` iterations with status generation_failed / generation_error as given by
`genFailStatus`, records no critique and no refinement for that iteration, does
not retry, and still returns a workflow result value; when the failure hits the
first iteration the run reports success = false with no best ad. -/
theorem generation_failure_terminates (ag : Agents) (max_iterations : Nat) (θ : ℚ)
    (prompt : String) (K : Nat) (g : GenOutcome) (s : String)
    (hK1 : 1 ≤ K) (hK2 : K ≤ max_iterations)
    (hgen : ∀ i p, i < K →
      ∃ path err, ag.generate i p = GenOutcome.result true (some path) err)
    (hdesc : ∀ i p, ∃ d, ag.describe i p = .ok d)
    (hcrit : ∀ i p, ∃ c, ag.critique i p = .ok c ∧ c.overall_score.getD 0 < θ)
    (hfail : ∀ p, ag.generate K p = g) (hgs : genFailStatus g = some s) :
    (generate_and_refine ag max_iterations θ prompt).iterations_count = K ∧
    ((generate_and_refine ag max_iterations θ prompt).iterations.getLast?.bind
      IterationRecord.status) = some s ∧
    ((generate_and_refine ag max_iterations θ prompt).iterations.getLast?.map
      IterationRecord.critique) = some none ∧
    ((generate_and_refine ag max_iterations θ prompt).iterations.getLast?.map
      IterationRecord.refinement) = some none ∧
    (K = 1 → (generate_and_refine ag max_iterations θ prompt).success = false ∧
      (generate_and_refine ag max_iterations θ prompt).best_ad = none) := by
  obtain ⟨L, S, C, R⟩ := loop_from_gen_fail ag max_iterations θ K g s hgen hdesc hcrit
    hfail hgs hK2 max_iterations 1 prompt initState (by omega) (by omega)
  refine ⟨?_, ?_, ?_, ?_, ?_⟩
  · have hL : (loop_from ag max_iterations θ max_iterations 1 prompt
        initState).iterations.length = 0 + (K + 1 - 1) := by
      simpa [initState] using L
    simp only [generate_and_refine]
    omega
  · simpa [generate_and_refine] using S
  · simpa [generate_and_refine] using C
  · simpa [generate_and_refine] using R
  · intro hKeq
    subst hKeq
    obtain ⟨m, hm⟩ : ∃ m, max_iterations = m + 1 := ⟨max_iterations - 1, by omega⟩
    obtain ⟨rec, hstep, -, -, -, -⟩ := run_iteration_gen_fail ag max_iterations θ 1 prompt
      initState g s (hfail prompt) hgs
    constructor
    · simp only [generate_and_refine, hm] at hstep ⊢
      simp only [loop_from, hstep]
      simp [appendRecord, initState]
    · simp only [generate_and_refine, hm] at hstep ⊢
      simp only [loop_from, hstep]
      simp [appendRecord, initState]

/-- Witness for C8: generation succeeds at iteration 1 and fails at iteration 2 of
a three-iteration budget, and separately a first-iteration failure yields a result
with success = false and no best ad. -/
theorem generation_failure_terminates_witness :
    (generate_and_refine (stubAgents (genFailsAt 2) (fun _ => 0.40)) 3 0.75
      "seed").iterations_count = 2 ∧
    ((generate_and_refine (stubAgents (genFailsAt 2) (fun _ => 0.40)) 3 0.75
      "seed").iterations.getLast?.bind IterationRecord.status) =
      some "generation_failed" ∧
    ((generate_and_refine (stubAgents (genFailsAt 2) (fun _ => 0.40)) 3 0.75
      "seed").iterations.getLast?.map IterationRecord.critique) = some none ∧
    ((generate_and_refine (stubAgents (genFailsAt 2) (fun _ => 0.40)) 3 0.75
      "seed").iterations.getLast?.map IterationRecord.refinement) = some none ∧
    (generate_and_refine (stubAgents (genFailsAt 1) (fun _ => 0.40)) 3 0.75
      "seed").success = false ∧
    (generate_and_refine (stubAgents (genFailsAt 1) (fun _ => 0.40)) 3 0.75
      "seed").best_ad = none := by
  have h2 := generation_failure_terminates (stubAgents (genFailsAt 2) (fun _ => 0.40))
    3 0.75 "seed" 2 (.result false none (some "generation backend unavailable"))
    "generation_failed" (by norm_num) (by norm_num)
    (fun i p hi => ⟨"ad.png", none, by
      simp only [stubAgents, genFailsAt]
      rw [if_pos hi]⟩)
    (fun _ _ => ⟨⟨"description"⟩, rfl⟩)
    (fun _ _ => ⟨⟨some 0.40⟩, rfl, by norm_num⟩)
    (fun p => by
      simp only [stubAgents, genFailsAt]
      rw [if_neg (by omega)])
    rfl
  have h1 := generation_failure_terminates (stubAgents (genFailsAt 1) (fun _ => 0.40))
    3 0.75 "seed" 1 (.result false none (some "generation backend unavailable"))
    "generation_failed" (by norm_num) (by norm_num)
    (fun i p hi => ⟨"ad.png", none, by
      simp only [stubAgents, genFailsAt]
      rw [if_pos hi]⟩)
    (fun _ _ => ⟨⟨"description"⟩, rfl⟩)
    (fun _ _ => ⟨⟨some 0.40⟩, rfl, by norm_num⟩)
    (fun p => by
      simp only [stubAgents, genFailsAt]
      rw [if_neg (by omega)])
    rfl
  exact ⟨h2.1, h2.2.1, h2.2.2.1, h2.2.2.2.1, (h1.2.2.2.2 rfl).1, (h1.2.2.2.2 rfl).2⟩

end TriHusk
